import Mathlib

/-!
Verification of the geoip subsystem of apimgr/zipcodes.

Shallow embedding of `src/geoip` (the four-database generation:
`Initialize`, `Reload`, `Lookup`, `LookupIP`, `BatchLookupHandler`,
`downloadFile`, `GetDatabasePaths`, `DatabasesExist`).  The external
`geoip2` library and the OS/network are modelled by explicit environment
records; each repository function becomes a pure Lean function over them,
instrumented with an event trace where a claim speaks about which readers
are consulted, opened or closed.
-/

namespace Zipcodes

/-- An opened geoip2 reader, identified by the path it was opened from
(`geoip2.Open(path)` hands back a handle on that file). -/
structure Reader where
  path : String
deriving DecidableEq, Repr

/-- The record a City database yields for an IP, after the accesses the Go
code performs (`record.Country.Names["en"]`, `record.Country.IsoCode`,
`record.City.Names["en"]`, `record.Location.{Latitude,Longitude,TimeZone}`);
a missing map key in Go already yields the empty string, so the fields here
are the final strings.  Coordinates are modelled as integers: the code only
copies them, never computes with them. -/
structure CityRecord where
  countryName : String
  isoCode : String
  cityName : String
  lat : Int
  lon : Int
  timezone : String
deriving DecidableEq, Repr

/-- The record a Country database yields for an IP. -/
structure CountryRecord where
  countryName : String
  isoCode : String
deriving DecidableEq, Repr

/-- The record an ASN database yields for an IP. -/
structure ASNRecord where
  asn : Nat
  org : String
deriving DecidableEq, Repr

/-- Result of Go's `net.ParseIP` when it succeeds: the only fact the code
uses about the parsed value is whether `To4()` is non-nil (IPv4, including
IPv4-mapped forms) or nil (IPv6). -/
structure IPAddr where
  isV4 : Bool
deriving DecidableEq, Repr

/-- Environment modelling the external world of the geoip package: which
paths `geoip2.Open` succeeds on, what `net.ParseIP` returns, and what
record each opened reader (identified by its path) yields for an IP
string (`none` models a lookup call returning a non-nil error). -/
structure GeoEnv where
  openOk : String → Bool
  parseIP : String → Option IPAddr
  cityRec : String → String → Option CityRecord
  countryRec : String → String → Option CountryRecord
  asnRec : String → String → Option ASNRecord

/-- The `GeoIP` struct: one optional reader per database kind. -/
structure GeoIP where
  cityIPv4DB : Option Reader
  cityIPv6DB : Option Reader
  countryDB : Option Reader
  asnDB : Option Reader
deriving DecidableEq, Repr

/-- The `Location` struct returned by lookups, with Go zero values as
defaults. -/
structure Location where
  IP : String := ""
  Country : String := ""
  CountryCode : String := ""
  City : String := ""
  Latitude : Int := 0
  Longitude : Int := 0
  Timezone : String := ""
  ASN : Nat := 0
  ASNOrg : String := ""
deriving DecidableEq, Repr

/-- A query event: which reader `Lookup` consulted, and through which
library call (`City`, `Country` or `ASN`). -/
inductive Query where
  | qCity : Reader → Query
  | qCountry : Reader → Query
  | qAsn : Reader → Query
deriving DecidableEq, Repr

/-- The method `(g *GeoIP) Lookup(ip)`; the receiver may be nil, modelled
by `Option GeoIP`.  Returns the location together with the trace of reader
queries performed, in order. -/
def Lookup (env : GeoEnv) (gOpt : Option GeoIP) (ip : String) :
    Except String (Location × List Query) :=
  match gOpt with
  | none => Except.error "GeoIP not initialized"
  | some g =>
    match env.parseIP ip with
    | none => Except.error ("invalid IP address: " ++ ip)
    | some a =>
      let loc0 : Location := { IP := ip }
      let cityDB := if a.isV4 then g.cityIPv4DB else g.cityIPv6DB
      let step1 : Location × List Query :=
        match cityDB with
        | some r =>
          ((match env.cityRec r.path ip with
            | some rec =>
              { loc0 with Country := rec.countryName, CountryCode := rec.isoCode,
                          City := rec.cityName, Latitude := rec.lat,
                          Longitude := rec.lon, Timezone := rec.timezone }
            | none => loc0),
           [Query.qCity r])
        | none =>
          match g.countryDB with
          | some r =>
            ((match env.countryRec r.path ip with
              | some rec =>
                { loc0 with Country := rec.countryName, CountryCode := rec.isoCode }
              | none => loc0),
             [Query.qCountry r])
          | none => (loc0, [])
      let step2 : Location × List Query :=
        match g.asnDB with
        | some r =>
          ((match env.asnRec r.path ip with
            | some rec => { step1.1 with ASN := rec.asn, ASNOrg := rec.org }
            | none => step1.1),
           step1.2 ++ [Query.qAsn r])
        | none => step1
      Except.ok step2

/-- The package-level `LookupIP(ip)` convenience function: nil-instance
check, then delegate to the method. -/
def LookupIP (env : GeoEnv) (gOpt : Option GeoIP) (ip : String) :
    Except String (Location × List Query) :=
  match gOpt with
  | none => Except.error "GeoIP not initialized"
  | some g => Lookup env (some g) ip

/-- Whether an `Except` is a success. -/
def isOkE {α : Type} (e : Except String α) : Bool :=
  match e with
  | Except.ok _ => true
  | Except.error _ => false

/-- The package-level state touched by `Initialize`: the `once` guard and
the `instance` pointer. -/
structure Global where
  onceDone : Bool
  inst : Option GeoIP
deriving DecidableEq, Repr

/-- Go's `Initialize(cityIPv4DBPath, cityIPv6DBPath, countryDBPath,
asnDBPath)`.  Under `once.Do` the body runs only on the first call; it
builds a fresh instance and opens the four kinds in order, skipping a kind
whose path is empty and aborting with an error (leaving later kinds
unopened) when `geoip2.Open` fails on a nonempty path.  Returns the new
global state, the list of readers opened, and the returned error. -/
def Initialize (env : GeoEnv) (glob : Global) (p4 p6 pc pa : String) :
    Global × List Reader × Except String Unit :=
  if glob.onceDone then (glob, [], Except.ok ()) else
  if p4 ≠ "" ∧ env.openOk p4 = false then
    (⟨true, some ⟨none, none, none, none⟩⟩, [],
     Except.error "failed to open city IPv4 database")
  else
    let r4 : Option Reader := if p4 ≠ "" then some ⟨p4⟩ else none
    if p6 ≠ "" ∧ env.openOk p6 = false then
      (⟨true, some ⟨r4, none, none, none⟩⟩, r4.toList,
       Except.error "failed to open city IPv6 database")
    else
      let r6 : Option Reader := if p6 ≠ "" then some ⟨p6⟩ else none
      if pc ≠ "" ∧ env.openOk pc = false then
        (⟨true, some ⟨r4, r6, none, none⟩⟩, r4.toList ++ r6.toList,
         Except.error "failed to open country database")
      else
        let rc : Option Reader := if pc ≠ "" then some ⟨pc⟩ else none
        if pa ≠ "" ∧ env.openOk pa = false then
          (⟨true, some ⟨r4, r6, rc, none⟩⟩, r4.toList ++ r6.toList ++ rc.toList,
           Except.error "failed to open ASN database")
        else
          let ra : Option Reader := if pa ≠ "" then some ⟨pa⟩ else none
          (⟨true, some ⟨r4, r6, rc, ra⟩⟩,
           r4.toList ++ r6.toList ++ rc.toList ++ ra.toList, Except.ok ())

/-- The readers currently installed in a `GeoIP` value, in the order the
code closes them (city IPv4, city IPv6, country, ASN). -/
def GeoIP.installed (g : GeoIP) : List Reader :=
  g.cityIPv4DB.toList ++ g.cityIPv6DB.toList ++ g.countryDB.toList ++ g.asnDB.toList

/-- A close or open event during `Reload`, in program order. -/
inductive REvent where
  | closeR : Reader → REvent
  | openR : Reader → REvent
deriving DecidableEq, Repr

/-- The open events `Reload` emits for one kind: one open when the path is
nonempty (this helper is only reached when the open succeeded). -/
def opensOf (p : String) : List REvent :=
  if p ≠ "" then [REvent.openR ⟨p⟩] else []

/-- Go's `(g *GeoIP) Reload(...)`: first closes every installed reader,
then opens the four kinds in order; a kind with an empty path keeps its
old (now closed) field value, a failed open on a nonempty path aborts with
an error and leaves that field nil (the multi-assignment stores the nil
reader).  Returns the new struct value, the event trace (closes then
opens, in program order), and the returned error. -/
def Reload (env : GeoEnv) (g : GeoIP) (p4 p6 pc pa : String) :
    GeoIP × List REvent × Except String Unit :=
  let cs : List REvent := (g.installed).map REvent.closeR
  if p4 ≠ "" ∧ env.openOk p4 = false then
    ({ g with cityIPv4DB := none }, cs,
     Except.error "failed to reload city IPv4 database")
  else
    let g1 := if p4 ≠ "" then { g with cityIPv4DB := some ⟨p4⟩ } else g
    if p6 ≠ "" ∧ env.openOk p6 = false then
      ({ g1 with cityIPv6DB := none }, cs ++ opensOf p4,
       Except.error "failed to reload city IPv6 database")
    else
      let g2 := if p6 ≠ "" then { g1 with cityIPv6DB := some ⟨p6⟩ } else g1
      if pc ≠ "" ∧ env.openOk pc = false then
        ({ g2 with countryDB := none }, cs ++ (opensOf p4 ++ opensOf p6),
         Except.error "failed to reload country database")
      else
        let g3 := if pc ≠ "" then { g2 with countryDB := some ⟨pc⟩ } else g2
        if pa ≠ "" ∧ env.openOk pa = false then
          ({ g3 with asnDB := none },
           cs ++ (opensOf p4 ++ opensOf p6 ++ opensOf pc),
           Except.error "failed to reload ASN database")
        else
          let g4 := if pa ≠ "" then { g3 with asnDB := some ⟨pa⟩ } else g3
          (g4, cs ++ (opensOf p4 ++ opensOf p6 ++ opensOf pc ++ opensOf pa),
           Except.ok ())

/-- One iteration of `BatchLookupHandler`'s loop body: a failed lookup is
turned into a marker `Location` carrying the error in the `Country` field;
a successful one is appended as-is. -/
def batchItem (env : GeoEnv) (gOpt : Option GeoIP) (ip : String) : Location :=
  match LookupIP env gOpt ip with
  | Except.error e => { IP := ip, Country := "Error: " ++ e }
  | Except.ok res => res.1

/-- The `for _, ip := range request.IPs` loop of `BatchLookupHandler`,
appending one result per input to the accumulator. -/
def batchLoop (env : GeoEnv) (gOpt : Option GeoIP) :
    List String → List Location → List Location
  | [], acc => acc
  | ip :: rest, acc => batchLoop env gOpt rest (acc ++ [batchItem env gOpt ip])

/-- The decoded core of `BatchLookupHandler`: reject a request with more
than 100 IPs, otherwise run the lookup loop over the inputs. -/
def BatchLookupHandler (env : GeoEnv) (gOpt : Option GeoIP)
    (ips : List String) : Except String (List Location) :=
  if ips.length > 100 then Except.error "Maximum 100 IPs per request"
  else Except.ok (batchLoop env gOpt ips [])

/-- The list a successful batch response carries (empty on rejection). -/
def okList (e : Except String (List Location)) : List Location :=
  match e with
  | Except.ok l => l
  | Except.error _ => []

/-- Go's `filepath.Join` for the simple two-component case the downloader
uses. -/
def joinPath (a b : String) : String := a ++ "/" ++ b

/-- The `DatabaseFiles` struct of the four-database downloader. -/
structure DatabaseFiles where
  CityIPv4DB : String
  CityIPv6DB : String
  CountryDB : String
  ASNDB : String
deriving DecidableEq, Repr

/-- `GetDatabasePaths(dataDir)`: the fixed per-kind file names under the
data directory's `geoip` folder. -/
def GetDatabasePaths (dataDir : String) : DatabaseFiles :=
  let geoipDir := joinPath dataDir "geoip"
  { CityIPv4DB := joinPath geoipDir "geolite2-city-ipv4.mmdb"
    CityIPv6DB := joinPath geoipDir "geolite2-city-ipv6.mmdb"
    CountryDB := joinPath geoipDir "geo-whois-asn-country.mmdb"
    ASNDB := joinPath geoipDir "asn.mmdb" }

/-- `fileExists(path)`: `os.Stat` succeeding is modelled by the `stat`
predicate of the filesystem environment. -/
def fileExists (stat : String → Bool) (path : String) : Bool :=
  stat path

/-- `DatabasesExist(dataDir)`: at least one city database, plus country,
plus ASN. -/
def DatabasesExist (stat : String → Bool) (dataDir : String) : Bool :=
  let paths := GetDatabasePaths dataDir
  let cityIPv4Exists := fileExists stat paths.CityIPv4DB
  let cityIPv6Exists := fileExists stat paths.CityIPv6DB
  let countryExists := fileExists stat paths.CountryDB
  let asnExists := fileExists stat paths.ASNDB
  (cityIPv4Exists || cityIPv6Exists) && countryExists && asnExists

/-- Outcome of `client.Get(url)` followed by the body read: a connection
error, or a response with a status code, the full body the server would
send, how many bytes actually arrive before the stream breaks, and whether
the copy runs to completion. -/
inductive HTTPResult where
  | netErr : String → HTTPResult
  | resp : Nat → List Nat → Nat → Bool → HTTPResult

/-- Environment for the downloader: the HTTP outcome per URL and whether
`os.Create` succeeds on a path. -/
structure NetEnv where
  get : String → HTTPResult
  createOk : String → Bool

/-- Point update of the modelled filesystem (path contents). -/
def fsSet (fs : String → Option (List Nat)) (p : String) (v : List Nat) :
    String → Option (List Nat) :=
  fun q => if q = p then some v else fs q

/-- Go's `downloadFile(url, filepath)`: GET the URL; a connection error or
a non-200 status returns without touching the filesystem; otherwise the
destination file is created (truncating any previous content) and the body
is copied into it directly — a copy that fails partway leaves the
delivered byte prefix at the destination.  Returns the filesystem after
the call and the returned error. -/
def downloadFile (env : NetEnv) (fs : String → Option (List Nat))
    (url fpath : String) : (String → Option (List Nat)) × Except String Unit :=
  match env.get url with
  | HTTPResult.netErr m => (fs, Except.error m)
  | HTTPResult.resp status full delivered copied =>
    if status ≠ 200 then
      (fs, Except.error ("download failed with status: " ++ toString status))
    else if env.createOk fpath = false then
      (fs, Except.error "failed to create output file")
    else if copied then (fsSet fs fpath full, Except.ok ())
    else (fsSet fs fpath (full.take delivered), Except.error "failed to write file")

/-! ## Helper lemmas -/

/-- The batch loop appends exactly one result per input, in input order. -/
theorem batchLoop_eq_map (env : GeoEnv) (gOpt : Option GeoIP) :
    ∀ (l : List String) (acc : List Location),
      batchLoop env gOpt l acc = acc ++ l.map (batchItem env gOpt) := by
  intro l
  induction l with
  | nil => intro acc; simp [batchLoop]
  | cons ip rest ih => intro acc; simp [batchLoop, ih]

/-- Every event `opensOf` emits is an open event. -/
theorem mem_opensOf (p : String) : ∀ e ∈ opensOf p, ∃ r, e = REvent.openR r := by
  intro e he
  unfold opensOf at he
  by_cases h : p ≠ ""
  · rw [if_pos h] at he
    simp at he
    exact ⟨⟨p⟩, he⟩
  · rw [if_neg h] at he
    simp at he

/-- Appending preserves the all-opens property of an event list. -/
theorem mem_append_opens {l1 l2 : List REvent}
    (h1 : ∀ e ∈ l1, ∃ r, e = REvent.openR r)
    (h2 : ∀ e ∈ l2, ∃ r, e = REvent.openR r) :
    ∀ e ∈ l1 ++ l2, ∃ r, e = REvent.openR r := by
  intro e he
  rcases List.mem_append.mp he with h | h
  · exact h1 e h
  · exact h2 e h

/-! ## Claims -/

/-- C8: `DatabasesExist` returns true if and only if (the City-IPv4 file
exists OR the City-IPv6 file exists) AND the Country file exists AND the
ASN file exists, all under the data directory's `geoip` folder. -/
theorem c8_DatabasesExist_policy (stat : String → Bool) (dataDir : String) :
    (DatabasesExist stat dataDir = true ↔
      ((stat (joinPath (joinPath dataDir "geoip") "geolite2-city-ipv4.mmdb") = true ∨
        stat (joinPath (joinPath dataDir "geoip") "geolite2-city-ipv6.mmdb") = true) ∧
       stat (joinPath (joinPath dataDir "geoip") "geo-whois-asn-country.mmdb") = true ∧
       stat (joinPath (joinPath dataDir "geoip") "asn.mmdb") = true)) ∧
    GetDatabasePaths dataDir =
      { CityIPv4DB := joinPath (joinPath dataDir "geoip") "geolite2-city-ipv4.mmdb"
        CityIPv6DB := joinPath (joinPath dataDir "geoip") "geolite2-city-ipv6.mmdb"
        CountryDB := joinPath (joinPath dataDir "geoip") "geo-whois-asn-country.mmdb"
        ASNDB := joinPath (joinPath dataDir "geoip") "asn.mmdb" } := by
  constructor
  · simp [DatabasesExist, GetDatabasePaths, fileExists, Bool.and_eq_true, Bool.or_eq_true,
      and_assoc]
  · rfl

/-- C9: `Initialize` is a one-shot constructor: every call leaves the
`once` guard set, and a call finding the guard already set returns nil,
opens nothing and leaves the global state untouched, whatever the paths. -/
theorem c9_Initialize_one_shot (env : GeoEnv) (glob : Global) (p4 p6 pc pa : String) :
    ((Initialize env glob p4 p6 pc pa).1.onceDone = true) ∧
    (glob.onceDone = true →
      Initialize env glob p4 p6 pc pa = (glob, [], Except.ok ())) := by
  constructor
  · unfold Initialize
    split_ifs <;> simp_all
  · intro h
    unfold Initialize
    simp [h]

/-- C9 witness: a second call with fresh paths returns nil and changes
nothing. -/
theorem c9_Initialize_one_shot_w :
    Initialize
      ⟨fun _ => true, fun _ => none, fun _ _ => none, fun _ _ => none, fun _ _ => none⟩
      ⟨true, some ⟨some ⟨"old4"⟩, none, none, none⟩⟩ "a" "b" "c" "d" =
      (⟨true, some ⟨some ⟨"old4"⟩, none, none, none⟩⟩, [], Except.ok ()) :=
  (c9_Initialize_one_shot
    ⟨fun _ => true, fun _ => none, fun _ _ => none, fun _ _ => none, fun _ _ => none⟩
    ⟨true, some ⟨some ⟨"old4"⟩, none, none, none⟩⟩ "a" "b" "c" "d").2 rfl

/-- C5: a batch of more than 100 IP strings is rejected with the
documented cap message; a batch of at most 100 yields exactly one result
per input, in input order (the mapped per-item results, where a failed
item becomes its in-place marker and never aborts the rest). -/
theorem c5_BatchLookupHandler_cap_and_order (env : GeoEnv) (gOpt : Option GeoIP)
    (ips : List String) :
    (ips.length > 100 →
      BatchLookupHandler env gOpt ips = Except.error "Maximum 100 IPs per request") ∧
    (ips.length ≤ 100 →
      BatchLookupHandler env gOpt ips = Except.ok (ips.map (batchItem env gOpt))) := by
  constructor
  · intro h
    unfold BatchLookupHandler
    rw [if_pos h]
  · intro h
    unfold BatchLookupHandler
    rw [if_neg (by omega), batchLoop_eq_map]
    simp

/-- Fixture environment: every path opens, `"not-an-ip"` and `"bad"` fail
to parse, everything else parses as IPv4, no database yields a record. -/
def envFix : GeoEnv :=
  ⟨fun _ => true,
   fun s => if s = "not-an-ip" ∨ s = "bad" then none else some ⟨true⟩,
   fun _ _ => none, fun _ _ => none, fun _ _ => none⟩

/-- Fixture instance: only a City-IPv4 reader installed. -/
def gFix : GeoIP := ⟨some ⟨"c4"⟩, none, none, none⟩

/-- C5 witness: a concrete three-item batch (one invalid entry) maps to
three in-order results, and a 101-item batch is rejected. -/
theorem c5_BatchLookupHandler_cap_and_order_w :
    BatchLookupHandler envFix (some gFix) ["8.8.8.8", "not-an-ip", "1.1.1.1"] =
      Except.ok
        ((["8.8.8.8", "not-an-ip", "1.1.1.1"]).map (batchItem envFix (some gFix))) ∧
    BatchLookupHandler envFix (some gFix) (List.replicate 101 "x") =
      Except.error "Maximum 100 IPs per request" :=
  ⟨(c5_BatchLookupHandler_cap_and_order envFix (some gFix)
      ["8.8.8.8", "not-an-ip", "1.1.1.1"]).2 (by decide),
   (c5_BatchLookupHandler_cap_and_order envFix (some gFix)
      (List.replicate 101 "x")).1 (by simp)⟩

/-- C10: a batch item whose lookup fails is appended as a `Location` whose
`IP` field is the input string and whose `Country` field is
`"Error: "` concatenated with the error message, all other fields zero —
the marker overloads the `Country` field. -/
theorem c10_batch_error_marker (env : GeoEnv) (gOpt : Option GeoIP)
    (ips : List String) (i : Nat) (e : String) (hi : i < ips.length)
    (hc : ips.length ≤ 100)
    (herr : LookupIP env gOpt (ips.get ⟨i, hi⟩) = Except.error e) :
    (okList (BatchLookupHandler env gOpt ips)).get? i =
      some { IP := ips.get ⟨i, hi⟩, Country := "Error: " ++ e } := by
  unfold BatchLookupHandler
  rw [if_neg (by omega), batchLoop_eq_map]
  simp only [okList, List.nil_append]
  rw [List.get?_map, List.get?_eq_get hi]
  simp only [List.get_eq_getElem] at herr
  simp [batchItem, herr]

/-- C10 witness: the unparsable entry `"bad"` yields the concrete marker
result in place. -/
theorem c10_batch_error_marker_w :
    (okList (BatchLookupHandler envFix (some gFix) ["bad"])).get? 0 =
      some { IP := "bad", Country := "Error: " ++ "invalid IP address: bad" } :=
  c10_batch_error_marker envFix (some gFix) ["bad"] 0 "invalid IP address: bad"
    (by decide) (by decide) rfl

/-- C7: `LookupIP` fails exactly on a nil instance or an unparsable input;
and on an initialized service, for a parsable IP for which no database
yields a record, it succeeds with only the `ip` field populated. -/
theorem c7_LookupIP_error_iff (env : GeoEnv) (gOpt : Option GeoIP) (ip : String) :
    (isOkE (LookupIP env gOpt ip) = false ↔ (gOpt = none ∨ env.parseIP ip = none)) ∧
    (∀ g a, gOpt = some g → env.parseIP ip = some a →
      (∀ p, env.cityRec p ip = none) → (∀ p, env.countryRec p ip = none) →
      (∀ p, env.asnRec p ip = none) →
      (LookupIP env gOpt ip).map Prod.fst = Except.ok ({ IP := ip } : Location)) := by
  constructor
  · rcases gOpt with _ | g
    · simp [LookupIP, isOkE]
    · rcases hp : env.parseIP ip with _ | a
      · simp [LookupIP, Lookup, hp, isOkE]
      · simp only [LookupIP, Lookup, hp]
        simp [isOkE]
  · intro g a hg ha hc hco hasn
    subst hg
    rcases hv : a.isV4 with _ | _ <;>
      rcases g4 : g.cityIPv4DB with _ | r4 <;>
      rcases g6 : g.cityIPv6DB with _ | r6 <;>
      rcases gc : g.countryDB with _ | rc <;>
      rcases ga : g.asnDB with _ | ra <;>
      simp [LookupIP, Lookup, ha, hv, g4, g6, gc, ga, hc, hco, hasn, Except.map]

/-- C7 witness: a parsable IP against an instance whose only reader has no
record for it succeeds with just the `ip` field set; the unparsable
`"not-an-ip"` and the nil instance each fail. -/
theorem c7_LookupIP_error_iff_w :
    (LookupIP envFix (some gFix) "1.2.3.4").map Prod.fst =
      Except.ok ({ IP := "1.2.3.4" } : Location) ∧
    (isOkE (LookupIP envFix (some gFix) "not-an-ip") = false ↔
      (some gFix = none ∨ envFix.parseIP "not-an-ip" = none)) ∧
    (isOkE (LookupIP envFix none "1.2.3.4") = false ↔
      ((none : Option GeoIP) = none ∨ envFix.parseIP "1.2.3.4" = none)) :=
  ⟨(c7_LookupIP_error_iff envFix (some gFix) "1.2.3.4").2 gFix ⟨true⟩ rfl rfl
     (fun _ => rfl) (fun _ => rfl) (fun _ => rfl),
   (c7_LookupIP_error_iff envFix (some gFix) "not-an-ip").1,
   (c7_LookupIP_error_iff envFix none "1.2.3.4").1⟩

/-- C6: for a parsed IPv4 address every City query `Lookup` performs goes
to the City-IPv4 reader, and for a parsed IPv6 address to the City-IPv6
reader — the version-inappropriate City reader is never consulted. -/
theorem c6_Lookup_version_split (env : GeoEnv) (g : GeoIP) (ip : String)
    (a : IPAddr) (ha : env.parseIP ip = some a) (loc : Location)
    (qs : List Query) (hres : Lookup env (some g) ip = Except.ok (loc, qs))
    (r : Reader) (hq : Query.qCity r ∈ qs) :
    (if a.isV4 then g.cityIPv4DB else g.cityIPv6DB) = some r := by
  rcases hv : a.isV4 with _ | _ <;>
    rcases g4 : g.cityIPv4DB with _ | r4 <;>
    rcases g6 : g.cityIPv6DB with _ | r6 <;>
    rcases gc : g.countryDB with _ | rc <;>
    rcases ga : g.asnDB with _ | ra <;>
    simp only [Lookup, ha, hv, g4, g6, gc, ga, if_true, if_false,
      Except.ok.injEq, Prod.mk.injEq, Bool.false_eq_true] at hres <;>
    rcases hres with ⟨-, hqs⟩ <;>
    subst hqs <;>
    simp at hq <;>
    simp_all

/-- C6 witness: a concrete IPv4 lookup against an instance with only a
City-IPv4 reader queries exactly that reader. -/
theorem c6_Lookup_version_split_w :
    (if (IPAddr.mk true).isV4 then gFix.cityIPv4DB else gFix.cityIPv6DB) =
      some (Reader.mk "c4") :=
  c6_Lookup_version_split envFix gFix "1.2.3.4" ⟨true⟩ rfl { IP := "1.2.3.4" }
    [Query.qCity ⟨"c4"⟩] rfl ⟨"c4"⟩ (by decide)

/-- Environment where the City reader yields no record but a Country
record exists for `"9.9.9.9"`. -/
def envCnoCity : GeoEnv :=
  ⟨fun _ => true, fun s => if s = "9.9.9.9" then some ⟨true⟩ else none,
   fun _ _ => none,
   fun _ _ => some ⟨"Neverland", "NL"⟩,
   fun _ _ => none⟩

/-- Instance with both a City-IPv4 and a Country reader installed. -/
def gCityAndCountry : GeoIP := ⟨some ⟨"c4"⟩, none, some ⟨"co"⟩, none⟩

/-- C4 counterexample: the City-IPv4 reader is present but yields no
record, a Country reader is present with a record for the IP — yet
`Lookup` queries only the City reader and leaves the country fields
empty, contradicting "the Country database is consulted exactly when the
version-appropriate City reader produced no record, including when the
City reader is present but yields nothing". -/
theorem c4_country_not_consulted_cex :
    Lookup envCnoCity (some gCityAndCountry) "9.9.9.9" =
      Except.ok ({ IP := "9.9.9.9" }, [Query.qCity (Reader.mk "c4")]) ∧
    gCityAndCountry.countryDB = some (Reader.mk "co") ∧
    envCnoCity.cityRec "c4" "9.9.9.9" = none ∧
    envCnoCity.countryRec "co" "9.9.9.9" = some ⟨"Neverland", "NL"⟩ :=
  ⟨rfl, rfl, rfl, rfl⟩

/-- C4 as amended: the Country database is consulted exactly when the
version-appropriate City reader is absent and a Country reader is
present — not when the City reader is present but yields nothing — and a
single result never mixes City and Country queries. -/
theorem c4_country_iff_city_absent (env : GeoEnv) (g : GeoIP) (ip : String)
    (a : IPAddr) (ha : env.parseIP ip = some a) (loc : Location)
    (qs : List Query) (hres : Lookup env (some g) ip = Except.ok (loc, qs)) :
    ((∃ r, Query.qCountry r ∈ qs) ↔
      ((if a.isV4 then g.cityIPv4DB else g.cityIPv6DB) = none ∧
        g.countryDB.isSome = true)) ∧
    (∀ r r', Query.qCity r ∈ qs → Query.qCountry r' ∈ qs → False) := by
  rcases hv : a.isV4 with _ | _ <;>
    rcases g4 : g.cityIPv4DB with _ | r4 <;>
    rcases g6 : g.cityIPv6DB with _ | r6 <;>
    rcases gc : g.countryDB with _ | rc <;>
    rcases ga : g.asnDB with _ | ra <;>
    simp only [Lookup, ha, hv, g4, g6, gc, ga, if_true, if_false,
      Except.ok.injEq, Prod.mk.injEq, Bool.false_eq_true] at hres <;>
    rcases hres with ⟨-, hqs⟩ <;>
    subst hqs <;>
    simp [hv, g4, g6, gc, ga]

/-- C4 witness: with the City-IPv4 reader absent and a Country reader
present, a Country query occurs, exhibiting the amended condition at a
concrete input. -/
theorem c4_country_iff_city_absent_w :
    (if (IPAddr.mk true).isV4
      then (GeoIP.mk none none (some ⟨"co"⟩) none).cityIPv4DB
      else (GeoIP.mk none none (some ⟨"co"⟩) none).cityIPv6DB) = none ∧
    (GeoIP.mk none none (some ⟨"co"⟩) none).countryDB.isSome = true :=
  (c4_country_iff_city_absent envCnoCity (GeoIP.mk none none (some ⟨"co"⟩) none)
      "9.9.9.9" ⟨true⟩ rfl
      { IP := "9.9.9.9", Country := "Neverland", CountryCode := "NL" }
      [Query.qCountry ⟨"co"⟩] rfl).1.mp ⟨⟨"co"⟩, by decide⟩

/-- Environment in which only the path `"n4"` fails to open. -/
def envFailN4 : GeoEnv :=
  ⟨fun p => !(p == "n4"), fun _ => none, fun _ _ => none, fun _ _ => none,
   fun _ _ => none⟩

/-- Instance holding a single previously active City-IPv4 reader. -/
def gOld : GeoIP := ⟨some ⟨"a"⟩, none, none, none⟩

/-- C3 counterexample: a `Reload` whose first open fails nonetheless
closes the previously active reader — the close event appears in the
trace, the reader is dropped from the struct, and the call returns an
error — contradicting "the old generation's readers are closed only after
the new generation's readers have all been fully opened and installed"
and "if Reload fails, the previously active readers remain open and
installed". -/
theorem c3_Reload_closes_old_cex :
    Reload envFailN4 gOld "n4" "" "" "" =
      (⟨none, none, none, none⟩, [REvent.closeR (Reader.mk "a")],
       Except.error "failed to reload city IPv4 database") := rfl

/-- C3 as amended: `Reload` closes every previously installed reader
first — the event trace is exactly the closes of the old generation
followed by open events only — so after a failed `Reload` the previously
active readers have already been closed rather than remaining installed. -/
theorem c3_Reload_close_before_open (env : GeoEnv) (g : GeoIP)
    (p4 p6 pc pa : String) :
    ∃ os, (Reload env g p4 p6 pc pa).2.1 =
        (g.installed).map REvent.closeR ++ os ∧
      ∀ e ∈ os, ∃ r, e = REvent.openR r := by
  by_cases h4 : p4 ≠ "" ∧ env.openOk p4 = false
  · exact ⟨[], by simp [Reload, h4], by simp⟩
  · by_cases h6 : p6 ≠ "" ∧ env.openOk p6 = false
    · exact ⟨opensOf p4, by simp [Reload, h4, h6], mem_opensOf p4⟩
    · by_cases hc : pc ≠ "" ∧ env.openOk pc = false
      · exact ⟨opensOf p4 ++ opensOf p6, by simp [Reload, h4, h6, hc],
          mem_append_opens (mem_opensOf p4) (mem_opensOf p6)⟩
      · by_cases ha : pa ≠ "" ∧ env.openOk pa = false
        · exact ⟨opensOf p4 ++ opensOf p6 ++ opensOf pc,
            by simp [Reload, h4, h6, hc, ha],
            mem_append_opens (mem_append_opens (mem_opensOf p4) (mem_opensOf p6))
              (mem_opensOf pc)⟩
        · exact ⟨opensOf p4 ++ opensOf p6 ++ opensOf pc ++ opensOf pa,
            by simp [Reload, h4, h6, hc, ha],
            mem_append_opens
              (mem_append_opens (mem_append_opens (mem_opensOf p4) (mem_opensOf p6))
                (mem_opensOf pc))
              (mem_opensOf pa)⟩

/-- A kind's path does not break the open chain: it is either skipped
(empty) or opens successfully. -/
def pathOk (env : GeoEnv) (p : String) : Prop :=
  p = "" ∨ env.openOk p = true

instance (env : GeoEnv) (p : String) : Decidable (pathOk env p) := by
  unfold pathOk
  infer_instance

/-- Environment in which only the path `"pc"` fails to open. -/
def envFailPC : GeoEnv :=
  ⟨fun p => !(p == "pc"), fun _ => none, fun _ _ => none, fun _ _ => none,
   fun _ _ => none⟩

/-- C2 counterexample: on the first call with four nonempty paths of
which only the Country one fails to open, `Initialize` fails wholesale —
it returns an error and leaves the ASN kind absent even though its path
would have opened fine — contradicting "never fails wholesale", "a kind
whose file is missing or fails to open is left absent" and "still
produces the largest valid subset of readers from the remaining kinds". -/
theorem c2_Initialize_wholesale_cex :
    Initialize envFailPC ⟨false, none⟩ "p4" "p6" "pc" "pa" =
      (⟨true, some ⟨some ⟨"p4"⟩, some ⟨"p6"⟩, none, none⟩⟩,
       [Reader.mk "p4", Reader.mk "p6"],
       Except.error "failed to open country database") ∧
    envFailPC.openOk "pa" = true :=
  ⟨rfl, rfl⟩

/-- The first `Initialize` call characterized: success iff every nonempty
path opens, and the installed instance has the earlier kinds opened, the
failing and later kinds absent. -/
theorem Initialize_char (env : GeoEnv) (glob : Global)
    (p4 p6 pc pa : String) (h : glob.onceDone = false) :
    (isOkE (Initialize env glob p4 p6 pc pa).2.2 = true ↔
      (pathOk env p4 ∧ pathOk env p6 ∧ pathOk env pc ∧ pathOk env pa)) ∧
    (Initialize env glob p4 p6 pc pa).1.inst =
      some ⟨(if p4 ≠ "" ∧ env.openOk p4 = true then some ⟨p4⟩ else none),
            (if pathOk env p4 ∧ p6 ≠ "" ∧ env.openOk p6 = true
              then some ⟨p6⟩ else none),
            (if pathOk env p4 ∧ pathOk env p6 ∧ pc ≠ "" ∧ env.openOk pc = true
              then some ⟨pc⟩ else none),
            (if pathOk env p4 ∧ pathOk env p6 ∧ pathOk env pc ∧
                pa ≠ "" ∧ env.openOk pa = true
              then some ⟨pa⟩ else none)⟩ := by
  by_cases e4 : p4 = "" <;> by_cases o4 : env.openOk p4 = true <;>
    by_cases e6 : p6 = "" <;> by_cases o6 : env.openOk p6 = true <;>
    by_cases ec : pc = "" <;> by_cases oc : env.openOk pc = true <;>
    by_cases ea : pa = "" <;> by_cases oa : env.openOk pa = true <;>
    simp_all [Initialize, pathOk, isOkE]

/-- `Reload` characterized: success iff every nonempty path opens; a kind
reached before the first failure is replaced (or kept, when its path is
empty), the failing kind's slot becomes nil, and the kinds after the
failure keep their old — already closed — field values. -/
theorem Reload_char (env : GeoEnv) (g : GeoIP) (p4 p6 pc pa : String) :
    (isOkE (Reload env g p4 p6 pc pa).2.2 = true ↔
      (pathOk env p4 ∧ pathOk env p6 ∧ pathOk env pc ∧ pathOk env pa)) ∧
    (Reload env g p4 p6 pc pa).1.cityIPv4DB =
      (if p4 ≠ ""
        then (if env.openOk p4 = true then some ⟨p4⟩ else none)
        else g.cityIPv4DB) ∧
    (Reload env g p4 p6 pc pa).1.cityIPv6DB =
      (if pathOk env p4 ∧ p6 ≠ ""
        then (if env.openOk p6 = true then some ⟨p6⟩ else none)
        else g.cityIPv6DB) ∧
    (Reload env g p4 p6 pc pa).1.countryDB =
      (if pathOk env p4 ∧ pathOk env p6 ∧ pc ≠ ""
        then (if env.openOk pc = true then some ⟨pc⟩ else none)
        else g.countryDB) ∧
    (Reload env g p4 p6 pc pa).1.asnDB =
      (if pathOk env p4 ∧ pathOk env p6 ∧ pathOk env pc ∧ pa ≠ ""
        then (if env.openOk pa = true then some ⟨pa⟩ else none)
        else g.asnDB) := by
  by_cases e4 : p4 = "" <;> by_cases o4 : env.openOk p4 = true <;>
    by_cases e6 : p6 = "" <;> by_cases o6 : env.openOk p6 = true <;>
    by_cases ec : pc = "" <;> by_cases oc : env.openOk pc = true <;>
    by_cases ea : pa = "" <;> by_cases oa : env.openOk pa = true <;>
    simp_all [Reload, pathOk, isOkE]

/-- C2 as amended: the first `Initialize` call and `Reload` open the four
kinds sequentially, skipping a kind whose path is empty (`Initialize`
leaves it absent, `Reload` keeps its old slot); the first kind whose
nonempty path fails to open aborts the operation with an error and leaves
that kind's slot nil — in `Initialize` the later kinds are then left
absent, in `Reload` the later kinds keep their previous, already closed,
readers.  Either operation succeeds if and only if every nonempty path
opens; neither produces the largest valid subset. -/
theorem c2_open_abort_on_failure (env : GeoEnv) (glob : Global) (g : GeoIP)
    (p4 p6 pc pa : String) (h : glob.onceDone = false) :
    ((isOkE (Initialize env glob p4 p6 pc pa).2.2 = true ↔
        (pathOk env p4 ∧ pathOk env p6 ∧ pathOk env pc ∧ pathOk env pa)) ∧
      (Initialize env glob p4 p6 pc pa).1.inst =
        some ⟨(if p4 ≠ "" ∧ env.openOk p4 = true then some ⟨p4⟩ else none),
              (if pathOk env p4 ∧ p6 ≠ "" ∧ env.openOk p6 = true
                then some ⟨p6⟩ else none),
              (if pathOk env p4 ∧ pathOk env p6 ∧ pc ≠ "" ∧ env.openOk pc = true
                then some ⟨pc⟩ else none),
              (if pathOk env p4 ∧ pathOk env p6 ∧ pathOk env pc ∧
                  pa ≠ "" ∧ env.openOk pa = true
                then some ⟨pa⟩ else none)⟩) ∧
    ((isOkE (Reload env g p4 p6 pc pa).2.2 = true ↔
        (pathOk env p4 ∧ pathOk env p6 ∧ pathOk env pc ∧ pathOk env pa)) ∧
      (Reload env g p4 p6 pc pa).1.cityIPv4DB =
        (if p4 ≠ ""
          then (if env.openOk p4 = true then some ⟨p4⟩ else none)
          else g.cityIPv4DB) ∧
      (Reload env g p4 p6 pc pa).1.cityIPv6DB =
        (if pathOk env p4 ∧ p6 ≠ ""
          then (if env.openOk p6 = true then some ⟨p6⟩ else none)
          else g.cityIPv6DB) ∧
      (Reload env g p4 p6 pc pa).1.countryDB =
        (if pathOk env p4 ∧ pathOk env p6 ∧ pc ≠ ""
          then (if env.openOk pc = true then some ⟨pc⟩ else none)
          else g.countryDB) ∧
      (Reload env g p4 p6 pc pa).1.asnDB =
        (if pathOk env p4 ∧ pathOk env p6 ∧ pathOk env pc ∧ pa ≠ ""
          then (if env.openOk pa = true then some ⟨pa⟩ else none)
          else g.asnDB)) :=
  ⟨Initialize_char env glob p4 p6 pc pa h, Reload_char env g p4 p6 pc pa⟩

/-- Instance holding four previously active readers, for exercising
`Reload` after a mid-sequence failure. -/
def gPrev : GeoIP := ⟨some ⟨"o4"⟩, some ⟨"o6"⟩, some ⟨"oc"⟩, some ⟨"oa"⟩⟩

/-- C2 witness: with only the Country path failing to open, the first
`Initialize` call installs the two City readers and leaves Country and
ASN absent, the same `Reload` fails rather than succeeding, and the ASN
slot after that failed `Reload` still holds the old (closed) reader. -/
theorem c2_open_abort_on_failure_w :
    (Initialize envFailPC ⟨false, none⟩ "p4" "p6" "pc" "pa").1.inst =
      some ⟨some ⟨"p4"⟩, some ⟨"p6"⟩, none, none⟩ ∧
    (isOkE (Reload envFailPC gPrev "p4" "p6" "pc" "pa").2.2 = true ↔
      (pathOk envFailPC "p4" ∧ pathOk envFailPC "p6" ∧ pathOk envFailPC "pc" ∧
        pathOk envFailPC "pa")) ∧
    (Reload envFailPC gPrev "p4" "p6" "pc" "pa").1.countryDB = none ∧
    (Reload envFailPC gPrev "p4" "p6" "pc" "pa").1.asnDB = some ⟨"oa"⟩ :=
  ⟨(c2_open_abort_on_failure envFailPC ⟨false, none⟩ gPrev "p4" "p6" "pc" "pa"
      rfl).1.2,
   (c2_open_abort_on_failure envFailPC ⟨false, none⟩ gPrev "p4" "p6" "pc" "pa"
      rfl).2.1,
   (c2_open_abort_on_failure envFailPC ⟨false, none⟩ gPrev "p4" "p6" "pc" "pa"
      rfl).2.2.2.2.1,
   (c2_open_abort_on_failure envFailPC ⟨false, none⟩ gPrev "p4" "p6" "pc" "pa"
      rfl).2.2.2.2.2⟩

/-- Network environment for the C1 counterexample: the URL `"u"` answers
200 with a four-byte body of which only two bytes arrive before the copy
fails; file creation succeeds everywhere. -/
def netPartial : NetEnv :=
  ⟨fun _ => HTTPResult.resp 200 [9, 9, 9, 9] 2 false, fun _ => true⟩

/-- Filesystem holding a previous valid file at `"dest"`. -/
def fsPrev : String → Option (List Nat) :=
  fun p => if p = "dest" then some [1, 2, 3] else none

/-- C1 counterexample: a transfer that fails partway replaces the
previous valid destination file with the partial prefix and returns an
error — there is no temporary path and no rename, contradicting "a
transfer that fails partway leaves the destination path unchanged". -/
theorem c1_downloadFile_partial_leak_cex :
    (downloadFile netPartial fsPrev "u" "dest").2 =
      Except.error "failed to write file" ∧
    (downloadFile netPartial fsPrev "u" "dest").1 "dest" = some [9, 9] ∧
    fsPrev "dest" = some [1, 2, 3] :=
  ⟨rfl, rfl, rfl⟩

/-- C1 as amended: `downloadFile` writes directly to the destination
path: a connection error or non-200 status leaves the filesystem
untouched, but once the copy starts the destination is created
(truncated) in place — a complete transfer leaves the full body there and
a transfer failing partway leaves the delivered prefix there along with
an error. -/
theorem c1_downloadFile_direct_write (env : NetEnv)
    (fs : String → Option (List Nat)) (url fpath : String) :
    (∀ m, env.get url = HTTPResult.netErr m →
      downloadFile env fs url fpath = (fs, Except.error m)) ∧
    (∀ status full delivered copied,
      env.get url = HTTPResult.resp status full delivered copied →
      status ≠ 200 →
      downloadFile env fs url fpath =
        (fs, Except.error ("download failed with status: " ++ toString status))) ∧
    (∀ full delivered, env.get url = HTTPResult.resp 200 full delivered true →
      env.createOk fpath = true →
      (downloadFile env fs url fpath).1 fpath = some full ∧
      (downloadFile env fs url fpath).2 = Except.ok ()) ∧
    (∀ full delivered, env.get url = HTTPResult.resp 200 full delivered false →
      env.createOk fpath = true →
      (downloadFile env fs url fpath).1 fpath = some (full.take delivered) ∧
      (downloadFile env fs url fpath).2 = Except.error "failed to write file") := by
  refine ⟨?_, ?_, ?_, ?_⟩
  · intro m hm
    simp [downloadFile, hm]
  · intro status full delivered copied hr hs
    simp [downloadFile, hr, hs]
  · intro full delivered hr hcr
    simp [downloadFile, hr, hcr, fsSet]
  · intro full delivered hr hcr
    simp [downloadFile, hr, hcr, fsSet]

/-- C1 witness: a complete transfer deposits the full body at the
destination and returns success, at a concrete environment. -/
theorem c1_downloadFile_direct_write_w :
    (downloadFile ⟨fun _ => HTTPResult.resp 200 [7, 8] 2 true, fun _ => true⟩
        fsPrev "u" "dest").1 "dest" = some [7, 8] ∧
    (downloadFile ⟨fun _ => HTTPResult.resp 200 [7, 8] 2 true, fun _ => true⟩
        fsPrev "u" "dest").2 = Except.ok () :=
  (c1_downloadFile_direct_write
      ⟨fun _ => HTTPResult.resp 200 [7, 8] 2 true, fun _ => true⟩
      fsPrev "u" "dest").2.2.1 [7, 8] 2 rfl rfl

end Zipcodes
